import Mathlib

/-!
Verification of the nextreset fetch/fallback/freshness pipeline.

This file shallowly embeds the core of the repository: the result data
model (scripts/types.ts, variant with FreshResult / StaleResult /
FallbackResult), the persistence layer with the separated live and LKG
stores (lib/data-output.ts, LKG-enabled variant), the fallback builder
(lib/data-output.ts, buildFallback), the transport layer with retry,
browser escalation and the shared browser budget (lib/fetch-layer.ts),
and the orchestrator loop with its crash isolation, LKG safety net,
summary and exit-code policy (the LKG-enabled orchestrator script).

File system effects are modelled by explicit state passing: the on-disk
stores are functions from paths to optional file contents, JSON parsing
is an explicit oracle of type String to Option, and the wall clock is a
parameter. Machine behaviour that can throw is modelled with Option or
Except so that every embedded function is total.
-/

namespace NextReset

/-- FailureType enum from scripts/types.ts. -/
inductive FailureType where
  | Blocked
  | Unavailable
  | ParseFailed
deriving DecidableEq, Repr

/-- Confidence enum from scripts/types.ts. -/
inductive Confidence where
  | High
  | Medium
  | Low
  | None
deriving DecidableEq, Repr

/-- Provider metadata record (provider_id, game, type, title) from
scripts/types.ts. -/
structure ProviderMetadata where
  provider_id : String
  game : String
  type : String
  title : String
deriving DecidableEq, Repr

/-- Flat embedding of the ProviderResult union (FreshResult, StaleResult,
FallbackResult and the unavailable shape used by the LKG orchestrator).
The status string is the variant tag; fields a variant does not carry are
modelled as Option.none, matching absent JSON fields. -/
structure ProviderResult where
  provider_id : Option String := none
  game : String
  type : String
  title : String
  status : String
  nextEventUtc : Option String := none
  last_good_at_utc : Option String := none
  last_success_at_utc : Option String := none
  fetched_at_utc : String
  source_url : Option String := none
  confidence : Confidence := Confidence.None
  reason : Option String := none
  notes : Option String := none
  failure_type : Option FailureType := none
  explanation : Option String := none
  http_status : Option Nat := none
  fetch_mode : Option String := none
deriving DecidableEq, Repr

/-- JavaScript truthiness of an optional string field: undefined or null
and the empty string are falsy, every other string is truthy. -/
def truthy : Option String → Bool
  | Option.none => false
  | some s => s ≠ ""

/-- JavaScript disjunction s or-else d on an optional string: used for
expressions of the form value || fallback in the source. -/
def orElse (o : Option String) (d : String) : String :=
  match o with
  | Option.none => d
  | some s => if s = "" then d else s

/-! ## Persistence layer: lib/data-output.ts, LKG-enabled variant

Two parallel directory trees: the live store and the LKG vault, one JSON
document per (game, type) pair. The file system is a function from paths
to optional raw contents. -/

/-- Embedding of path.join for one simple trailing component: the
components the code joins contain no dots or separators, so the join is
plain concatenation with a slash. -/
def pathJoin (a b : String) : String := a ++ "/" ++ b

/-- Live output path: DATA_DIR/game.type.json (getLivePath). -/
def getLivePath (dataDir game type : String) : String :=
  pathJoin dataDir (game ++ "." ++ type ++ ".json")

/-- LKG vault directory: DATA_DIR/_lkg. -/
def lkgDataDir (dataDir : String) : String := pathJoin dataDir "_lkg"

/-- LKG vault path: DATA_DIR/_lkg/game.type.json (getLkgPath). -/
def getLkgPath (dataDir game type : String) : String :=
  pathJoin (lkgDataDir dataDir) (game ++ "." ++ type ++ ".json")

/-- A file system snapshot: a map from paths to raw file contents,
Option.none meaning the file is missing. -/
def FileSystem : Type := String → Option String

/-- A JSON parse oracle: Option.none models JSON.parse throwing on the
given raw text (corrupt content). -/
def ParseOracle : Type := String → Option ProviderResult

/-- Embedding of readLkgData: resolves the LKG vault path, returns null
when the file is missing, and returns null (after logging) when the
parse throws. Totality of this function is the never-raises contract. -/
def readLkgData (fs : FileSystem) (parse : ParseOracle)
    (dataDir game type : String) : Option ProviderResult :=
  match fs (getLkgPath dataDir game type) with
  | Option.none => Option.none
  | some raw =>
    match parse raw with
    | Option.none => Option.none
    | some r => some r

/-- Embedding of writeLiveJson: unconditionally overwrites the live path
for the record with its serialized form. -/
def writeLiveJson (fs : FileSystem) (dataDir : String)
    (data : ProviderResult) (serialized : String) : FileSystem :=
  fun p => if p = getLivePath dataDir data.game data.type then some serialized else fs p

/-! ## Fallback builder: lib/data-output.ts buildFallback -/

/-- Embedding of buildFallback. The now argument stands for the run
timestamp new Date().toISOString(). The condition on lastGood mirrors the
source: the record exists, its status is fresh or stale, and its
nextEventUtc field is truthy. -/
def buildFallback (meta : ProviderMetadata) (failureType : FailureType)
    (explanation : String) (lastGood : Option ProviderResult) (now : String)
    (httpStatus : Option Nat) (fetchMode : Option String) : ProviderResult :=
  match lastGood with
  | some lg =>
    if (lg.status = "fresh" ∨ lg.status = "stale") ∧ truthy lg.nextEventUtc then
      { provider_id := some meta.provider_id
        game := meta.game
        type := meta.type
        title := meta.title
        status := "stale"
        nextEventUtc := lg.nextEventUtc
        last_good_at_utc :=
          if lg.status = "fresh" then some lg.fetched_at_utc else lg.last_good_at_utc
        fetched_at_utc := now
        source_url := lg.source_url
        confidence := lg.confidence
        reason := some explanation
        notes := lg.notes
        http_status := httpStatus
        fetch_mode := fetchMode }
    else
      { provider_id := some meta.provider_id
        game := meta.game
        type := meta.type
        title := meta.title
        status := "fallback"
        nextEventUtc := Option.none
        failure_type := some failureType
        explanation := some explanation
        fetched_at_utc := now
        http_status := httpStatus
        fetch_mode := fetchMode }
  | Option.none =>
    { provider_id := some meta.provider_id
      game := meta.game
      type := meta.type
      title := meta.title
      status := "fallback"
      nextEventUtc := Option.none
      failure_type := some failureType
      explanation := some explanation
      fetched_at_utc := now
      http_status := httpStatus
      fetch_mode := fetchMode }

/-- Embedding of writeLkgJson: when the record is not fresh the function
logs a warning and returns without touching the file system (no-op);
otherwise it overwrites the LKG vault path for the record. -/
def writeLkgJson (fs : FileSystem) (dataDir : String)
    (data : ProviderResult) (serialized : String) : FileSystem :=
  if data.status ≠ "fresh" then fs
  else fun p => if p = getLkgPath dataDir data.game data.type then some serialized else fs p

/-! ## Transport layer: lib/fetch-layer.ts -/

/-- The shared browser budget cap (BrowserBudget.MAX). -/
def BROWSER_MAX : Nat := 3

/-- Embedding of BrowserBudget.canUse on the used-count state. -/
def budgetCanUse (count : Nat) : Bool := count < BROWSER_MAX

/-- Embedding of getBrowserBudgetRemaining: MAX minus the used count. -/
def getBrowserBudgetRemaining (count : Nat) : Nat := BROWSER_MAX - count

/-- Embedding of the FetchResult record returned by fetchHtml. -/
structure FetchResult where
  ok : Bool
  status : Nat
  text : String
  mode : String
  url : Option String := none
  error : Option String := none
  failureType : Option FailureType := none
deriving DecidableEq, Repr

/-- Outcome of one direct HTTP attempt: the native fetch either resolved
to a response with a status, body text and final url, or threw with a
message (timeout abort, connection reset). -/
inductive AttemptOutcome where
  | response (status : Nat) (text : String) (url : String)
  | thrown (msg : String)
deriving DecidableEq, Repr

/-- Environment of one headless-browser fetch: crash is some message when
the launch or the navigation threw, otherwise the final status (with the
missing-response case already folded to 0), page content and final url. -/
structure BrowserEnv where
  crash : Option String := none
  status : Nat := 0
  text : String := ""
  url : String := ""
deriving DecidableEq, Repr

/-- Embedding of classifyStatus: 403 and 429 are Blocked, everything
else (including the explicit 5xx-or-0 test) is Unavailable. -/
def classifyStatus (status : Nat) : FailureType :=
  if status = 403 ∨ status = 429 then FailureType.Blocked
  else if 500 ≤ status ∨ status = 0 then FailureType.Unavailable
  else FailureType.Unavailable

/-- Embedding of fetchWithBrowser: on a crash of the launch or of the
navigation, the catch block returns a Blocked failure with status 0; the
budget counter is not touched anywhere in this function. -/
def fetchWithBrowser (benv : BrowserEnv) : FetchResult :=
  match benv.crash with
  | some msg =>
    { ok := false, status := 0, text := "", mode := "browser"
      error := some msg, failureType := some FailureType.Blocked }
  | Option.none =>
    { ok := decide (200 ≤ benv.status ∧ benv.status < 300)
      status := benv.status, text := benv.text, mode := "browser"
      url := some benv.url }

/-- Attempt loop of fetchHtml. The oracle resp gives the outcome of each
direct attempt by index, attempt is the current index, rem the number of
attempts still allowed after this one (so rem equals 0 exactly when the
source condition attempt === retries holds), and budget the used count of
the shared browser budget. Returns the fetch result, the total number of
attempts performed, and the new budget count. -/
def fetchHtmlAux (resp : Nat → AttemptOutcome) (benv : BrowserEnv)
    (useBrowserOnBlocked : Bool) :
    (attempt rem budget : Nat) → FetchResult × Nat × Nat
  | attempt, rem, budget =>
    match resp attempt with
    | AttemptOutcome.response s text url =>
      if 200 ≤ s ∧ s < 300 then
        ({ ok := true, status := s, text := text, mode := "http", url := some url },
          attempt + 1, budget)
      else if (s = 403 ∨ s = 429) ∧ useBrowserOnBlocked then
        if budgetCanUse budget then
          (fetchWithBrowser benv, attempt + 1, budget + 1)
        else
          ({ ok := false, status := s, text := "", mode := "http"
             error := some "Blocked and browser budget exhausted"
             failureType := some FailureType.Blocked }, attempt + 1, budget)
      else
        match rem with
        | 0 =>
          ({ ok := false, status := s, text := "", mode := "http"
             error := some ("HTTP " ++ toString s)
             failureType := some (classifyStatus s) }, attempt + 1, budget)
        | rem' + 1 => fetchHtmlAux resp benv useBrowserOnBlocked (attempt + 1) rem' budget
    | AttemptOutcome.thrown msg =>
      match rem with
      | 0 =>
        ({ ok := false, status := 0, text := "", mode := "http"
           error := some (orElse (some msg) "Unknown error")
           failureType := some FailureType.Unavailable }, attempt + 1, budget)
      | rem' + 1 => fetchHtmlAux resp benv useBrowserOnBlocked (attempt + 1) rem' budget

/-- Embedding of fetchHtml: runs the attempt loop from attempt 0 with
retries further attempts allowed (retries defaults to 2 in the source),
threading the browser budget count. -/
def fetchHtml (resp : Nat → AttemptOutcome) (benv : BrowserEnv)
    (useBrowserOnBlocked : Bool) (retries budget : Nat) : FetchResult × Nat × Nat :=
  fetchHtmlAux resp benv useBrowserOnBlocked 0 retries budget

/-- Embedding of withBrowserPage: throws when the budget is exhausted,
otherwise launches; the budget is consumed only after a successful
launch, and the launch exception propagates (only the finally block
runs). The callback argument is the outcome of the callback, itself a
value or a thrown message. -/
def withBrowserPage {α : Type} (budget : Nat) (launchOk : Bool)
    (launchErr : String) (callback : Except String α) :
    Except String α × Nat :=
  if ¬ budgetCanUse budget then
    (Except.error "Browser budget exhausted", budget)
  else if launchOk then
    (callback, budget + 1)
  else
    (Except.error launchErr, budget)

/-! ## Orchestrator: the LKG-enabled refresh script -/

/-- Registry entry: id, type, name (the run function is modelled by a
ProviderBehavior per invocation). -/
structure RegistryEntry where
  id : String
  type : String
  name : String
deriving DecidableEq, Repr

/-- Behaviour of one provider invocation: it either resolves to a result
record or throws with a message (covering synchronous throws and
rejected promises alike, both caught by the same try block). -/
inductive ProviderBehavior where
  | returns (r : ProviderResult)
  | throws (msg : String)
deriving DecidableEq, Repr

/-- The unavailable record the orchestrator builds in its catch block
when a provider crashes. -/
def crashRecord (e : RegistryEntry) (explanation now : String) : ProviderResult :=
  { provider_id := some e.id, game := e.id, type := e.type, title := e.name
    status := "unavailable", nextEventUtc := Option.none
    failure_type := some FailureType.Unavailable
    explanation := some explanation, fetched_at_utc := now }

/-- Step 1 of the per-source loop: invoke the provider, catch any crash
and turn it into an unavailable record whose explanation is the message
prefixed with Crashed:, and treat a result with a falsy status as the
thrown invalid-result error. -/
def providerOutcome (e : RegistryEntry) (b : ProviderBehavior) (now : String) : ProviderResult :=
  match b with
  | ProviderBehavior.throws msg => crashRecord e ("Crashed: " ++ msg) now
  | ProviderBehavior.returns r =>
    if r.status = "" then
      crashRecord e "Crashed: Provider returned invalid/empty result" now
    else r

/-- The stale record the orchestrator builds when a failed run recovers
with a fresh LKG record: spread of the LKG record with status stale, the
current run timestamp, the LKG fetch time as last success, the failure
explanation as reason, and the registry metadata re-imposed. -/
def staleFromLkg (e : RegistryEntry) (result l : ProviderResult) (now : String) : ProviderResult :=
  { l with
    status := "stale"
    fetched_at_utc := now
    last_success_at_utc := some l.fetched_at_utc
    reason :=
      if result.status = "unavailable" then result.explanation
      else some (orElse result.reason "Unknown failure")
    provider_id := some e.id, game := e.id, type := e.type, title := e.name }

/-- The shape guard of the no-LKG branch: if the failed result is not
already tagged unavailable it is rebuilt as an unavailable record. -/
def ensureUnavailable (e : RegistryEntry) (result : ProviderResult) (now : String) : ProviderResult :=
  if result.status ≠ "unavailable" then
    { provider_id := some e.id, game := e.id, type := e.type, title := e.name
      status := "unavailable", nextEventUtc := Option.none
      failure_type := some FailureType.Unavailable
      explanation := some (orElse result.reason "Unknown failure")
      fetched_at_utc := now }
  else result

/-- The LKG safety net for a failed result: downgrade to stale when the
LKG record exists and is fresh, otherwise write an unavailable record. -/
def classifyFailure (e : RegistryEntry) (result : ProviderResult)
    (lkg : Option ProviderResult) (now : String) : ProviderResult :=
  match lkg with
  | some l =>
    if l.status = "fresh" then staleFromLkg e result l now
    else ensureUnavailable e result now
  | Option.none => ensureUnavailable e result now

/-- The LKG vault as the orchestrator sees it: one optional record per
(game, type) key. This is the composition of readLkgData and writeLkgJson
with the path scheme, abstracting JSON serialization as the identity. -/
def Vault : Type := String × String → Option ProviderResult

/-- Vault view of writeLkgJson: a non-fresh record leaves the vault
untouched, a fresh record is stored under its own (game, type) key. -/
def vaultWriteLkg (v : Vault) (data : ProviderResult) : Vault :=
  if data.status ≠ "fresh" then v
  else fun k => if k = (data.game, data.type) then some data else v k

/-- One iteration of the orchestrator loop for one registry entry: run
the provider with crash isolation; on a fresh result dual-write live and
LKG; otherwise read the LKG vault for this source and classify, writing
only the live store (the vault is returned unchanged). The live store is
not modelled here; the first component is the record written live. -/
def orchestrateOne (e : RegistryEntry) (b : ProviderBehavior) (now : String)
    (v : Vault) : ProviderResult × Vault :=
  let result := providerOutcome e b now
  if result.status = "fresh" then
    (result, vaultWriteLkg v result)
  else
    (classifyFailure e result (v (e.id, e.type)) now, v)

/-- Vault evolution across a sequence of orchestrator iterations. -/
def runsVault : List (RegistryEntry × ProviderBehavior × String) → Vault → Vault
  | [], v => v
  | (e, b, now) :: rest, v => runsVault rest (orchestrateOne e b now v).2

/-- The list of records the orchestrator writes live, one per registry
entry, threading the LKG vault through the iterations. -/
def runAllResults : List (RegistryEntry × ProviderBehavior × String) → Vault → List ProviderResult
  | [], _ => []
  | (e, b, now) :: rest, v =>
    let step := orchestrateOne e b now v
    step.1 :: runAllResults rest step.2

/-- Run summary: the per-status counts the orchestrator prints. -/
structure Summary where
  total : Nat
  fresh : Nat
  stale : Nat
  unavailable : Nat
deriving DecidableEq, Repr

/-- Number of results whose status is unavailable. -/
def unavailableCount (results : List ProviderResult) : Nat :=
  (results.filter (fun r => r.status == "unavailable")).length

/-- Summary computation over the collected results. -/
def mkSummary (results : List ProviderResult) : Summary :=
  { total := results.length
    fresh := (results.filter (fun r => r.status == "fresh")).length
    stale := (results.filter (fun r => r.status == "stale")).length
    unavailable := unavailableCount results }

/-- Failure ratio of the exit logic: unavailable over total when the
total is positive, else 0. The source computes this in floating point;
for the integer counts at hand the comparison against 0.5 is exact, so
the rational embedding coincides with the float computation. -/
def failureFrac (results : List ProviderResult) : ℚ :=
  if 0 < results.length then (unavailableCount results : ℚ) / (results.length : ℚ) else 0

/-- Exit code logic: exit 1 when the failure ratio exceeds one half,
exit 0 otherwise. -/
def exitCode (results : List ProviderResult) : Nat :=
  if 1 / 2 < failureFrac results then 1 else 0

/-! ## Sample data for concrete instantiations -/

/-- A registry entry as in the orchestrator registry. -/
def sampleEntry : RegistryEntry :=
  { id := "fortnite", type := "next-season", name := "Fortnite" }

/-- A fresh record as a provider would produce it. -/
def sampleFresh : ProviderResult :=
  { provider_id := some "fortnite", game := "fortnite", type := "next-season"
    title := "Fortnite", status := "fresh"
    nextEventUtc := some "2024-03-08T06:00:00Z"
    fetched_at_utc := "2024-01-01T00:00:00Z"
    source_url := some "https://www.fortnite.com"
    confidence := Confidence.High }

/-- A stale record as buildFallback would produce it. -/
def sampleStaleRecord : ProviderResult :=
  { provider_id := some "gta", game := "gta", type := "weekly-reset"
    title := "GTA Online", status := "stale"
    nextEventUtc := some "2024-01-11T10:00:00Z"
    last_good_at_utc := some "2024-01-01T00:00:00Z"
    fetched_at_utc := "2024-01-04T00:00:00Z"
    confidence := Confidence.High
    reason := some "HTTP 500" }

/-- Provider metadata matching the sample entry. -/
def sampleMeta : ProviderMetadata :=
  { provider_id := "fortnite", game := "fortnite", type := "next-season"
    title := "Fortnite" }

/-! ## Theorems -/

/-- Helper invariant for the LKG vault: any record found in the vault
after a sequence of orchestrator iterations either was there at the
start, or is the fresh outcome of one of the iterations. -/
theorem runsVault_spec :
    ∀ (items : List (RegistryEntry × ProviderBehavior × String)) (v : Vault)
      (k : String × String) (r : ProviderResult),
      runsVault items v k = some r →
      v k = some r ∨
        (r.status = "fresh" ∧ ∃ x ∈ items, providerOutcome x.1 x.2.1 x.2.2 = r)
  | [], _, _, _, h => Or.inl h
  | (e, b, now) :: rest, v, k, r, h => by
    have h2 := runsVault_spec rest ((orchestrateOne e b now v).2) k r h
    rcases h2 with h2 | ⟨hfr, x, hx, hpo⟩
    · by_cases hf : (providerOutcome e b now).status = "fresh"
      · simp only [orchestrateOne, hf, if_true, vaultWriteLkg, ne_eq,
          not_true_eq_false, if_false] at h2
        by_cases hk : k = ((providerOutcome e b now).game, (providerOutcome e b now).type)
        · rw [if_pos hk] at h2
          have hre : providerOutcome e b now = r := by
            injection h2
          right
          exact ⟨hre ▸ hf, ⟨(e, b, now), by simp, hre⟩⟩
        · rw [if_neg hk] at h2
          exact Or.inl h2
      · simp only [orchestrateOne, hf, if_false] at h2
        exact Or.inl h2
    · exact Or.inr ⟨hfr, x, by simp [hx], hpo⟩

/-- C1. Monotonic LKG: writeLkgJson applied to a non-fresh record leaves
the file system untouched (a no-op, not an error), and over any sequence
of orchestrator iterations starting from an empty vault, whatever the
vault holds for any key is a fresh record produced by one of the earlier
iterations — a stale or unavailable run never overwrites it. -/
theorem lkg_monotonic :
    (∀ (fs : FileSystem) (dataDir : String) (data : ProviderResult) (serialized : String),
        data.status ≠ "fresh" → writeLkgJson fs dataDir data serialized = fs)
    ∧ (∀ (items : List (RegistryEntry × ProviderBehavior × String))
        (k : String × String) (r : ProviderResult),
        runsVault items (fun _ => Option.none) k = some r →
        r.status = "fresh" ∧ ∃ x ∈ items, providerOutcome x.1 x.2.1 x.2.2 = r) := by
  constructor
  · intro fs dataDir data serialized h
    simp [writeLkgJson, h]
  · intro items k r h
    rcases runsVault_spec items (fun _ => Option.none) k r h with h2 | h2
    · cases h2
    · exact h2

/-- Witness for C1 at a concrete non-fresh record. -/
theorem lkg_monotonic_witness :
    writeLkgJson (fun _ => Option.none) "public/data" sampleStaleRecord "{}"
      = (fun _ => Option.none) :=
  lkg_monotonic.1 (fun _ => Option.none) "public/data" sampleStaleRecord "{}" (by decide)

/-- C2. Fallback correctness: from a fresh LKG record with event time T
and high confidence, a failed run with explanation HTTP 500 builds a
stale record with the same event time, source url, confidence and notes,
reason HTTP 500, the current timestamp, and the LKG fetch time as the
last good time. -/
theorem fallback_correctness (meta : ProviderMetadata) (ft : FailureType)
    (lg : ProviderResult) (T now : String) (hs : Option Nat) (fm : Option String)
    (hfresh : lg.status = "fresh") (hT : lg.nextEventUtc = some T) (hT0 : T ≠ "")
    (hconf : lg.confidence = Confidence.High) :
    (buildFallback meta ft "HTTP 500" (some lg) now hs fm).status = "stale"
    ∧ (buildFallback meta ft "HTTP 500" (some lg) now hs fm).nextEventUtc = some T
    ∧ (buildFallback meta ft "HTTP 500" (some lg) now hs fm).confidence = Confidence.High
    ∧ (buildFallback meta ft "HTTP 500" (some lg) now hs fm).reason = some "HTTP 500"
    ∧ (buildFallback meta ft "HTTP 500" (some lg) now hs fm).source_url = lg.source_url
    ∧ (buildFallback meta ft "HTTP 500" (some lg) now hs fm).notes = lg.notes
    ∧ (buildFallback meta ft "HTTP 500" (some lg) now hs fm).fetched_at_utc = now
    ∧ (buildFallback meta ft "HTTP 500" (some lg) now hs fm).last_good_at_utc
        = some lg.fetched_at_utc := by
  simp [buildFallback, hfresh, hT, hconf, truthy, hT0]

/-- Witness for C2 at the concrete sample fresh record. -/
theorem fallback_correctness_witness :
    (buildFallback sampleMeta FailureType.Unavailable "HTTP 500" (some sampleFresh)
        "2024-02-01T00:00:00Z" (some 500) (some "http")).status = "stale"
    ∧ (buildFallback sampleMeta FailureType.Unavailable "HTTP 500" (some sampleFresh)
        "2024-02-01T00:00:00Z" (some 500) (some "http")).nextEventUtc
        = some "2024-03-08T06:00:00Z"
    ∧ (buildFallback sampleMeta FailureType.Unavailable "HTTP 500" (some sampleFresh)
        "2024-02-01T00:00:00Z" (some 500) (some "http")).confidence = Confidence.High
    ∧ (buildFallback sampleMeta FailureType.Unavailable "HTTP 500" (some sampleFresh)
        "2024-02-01T00:00:00Z" (some 500) (some "http")).reason = some "HTTP 500"
    ∧ (buildFallback sampleMeta FailureType.Unavailable "HTTP 500" (some sampleFresh)
        "2024-02-01T00:00:00Z" (some 500) (some "http")).source_url = sampleFresh.source_url
    ∧ (buildFallback sampleMeta FailureType.Unavailable "HTTP 500" (some sampleFresh)
        "2024-02-01T00:00:00Z" (some 500) (some "http")).notes = sampleFresh.notes
    ∧ (buildFallback sampleMeta FailureType.Unavailable "HTTP 500" (some sampleFresh)
        "2024-02-01T00:00:00Z" (some 500) (some "http")).fetched_at_utc
        = "2024-02-01T00:00:00Z"
    ∧ (buildFallback sampleMeta FailureType.Unavailable "HTTP 500" (some sampleFresh)
        "2024-02-01T00:00:00Z" (some 500) (some "http")).last_good_at_utc
        = some sampleFresh.fetched_at_utc :=
  fallback_correctness sampleMeta FailureType.Unavailable sampleFresh
    "2024-03-08T06:00:00Z" "2024-02-01T00:00:00Z" (some 500) (some "http")
    (by decide) (by decide) (by decide) (by decide)

/-- C3. No-LKG and corrupt-LKG terminal case: readLkgData returns absent
when the LKG file is missing and also when its content fails to parse
(the function is total, so it never raises); and with an absent LKG a
failed run builds the unavailable variant (status fallback) with a null
event time, carrying the failure kind and the explanation. -/
theorem no_lkg_and_corrupt_lkg :
    (∀ (fs : FileSystem) (parse : ParseOracle) (dataDir game type : String),
        fs (getLkgPath dataDir game type) = Option.none →
        readLkgData fs parse dataDir game type = Option.none)
    ∧ (∀ (fs : FileSystem) (parse : ParseOracle) (dataDir game type raw : String),
        fs (getLkgPath dataDir game type) = some raw →
        parse raw = Option.none →
        readLkgData fs parse dataDir game type = Option.none)
    ∧ (∀ (meta : ProviderMetadata) (ft : FailureType) (expl now : String)
        (hs : Option Nat) (fm : Option String),
        (buildFallback meta ft expl Option.none now hs fm).status = "fallback"
        ∧ (buildFallback meta ft expl Option.none now hs fm).nextEventUtc = Option.none
        ∧ (buildFallback meta ft expl Option.none now hs fm).failure_type = some ft
        ∧ (buildFallback meta ft expl Option.none now hs fm).explanation = some expl) := by
  refine ⟨?_, ?_, ?_⟩
  · intro fs parse dataDir game type h
    simp [readLkgData, h]
  · intro fs parse dataDir game type raw h hp
    simp [readLkgData, h, hp]
  · intro meta ft expl now hs fm
    simp [buildFallback]

/-- Witness for C3 at a concrete missing file, a concrete corrupt file
and a concrete failed run. -/
theorem no_lkg_and_corrupt_lkg_witness :
    readLkgData (fun _ => Option.none) (fun _ => Option.none) "public/data"
        "fortnite" "next-season" = Option.none
    ∧ readLkgData (fun _ => some "not json") (fun _ => Option.none) "public/data"
        "fortnite" "next-season" = Option.none
    ∧ (buildFallback sampleMeta FailureType.Unavailable "HTTP 500" Option.none
        "2024-02-01T00:00:00Z" Option.none Option.none).status = "fallback" :=
  ⟨no_lkg_and_corrupt_lkg.1 (fun _ => Option.none) (fun _ => Option.none)
      "public/data" "fortnite" "next-season" rfl,
   no_lkg_and_corrupt_lkg.2.1 (fun _ => some "not json") (fun _ => Option.none)
      "public/data" "fortnite" "next-season" "not json" rfl rfl,
   (no_lkg_and_corrupt_lkg.2.2 sampleMeta FailureType.Unavailable "HTTP 500"
      "2024-02-01T00:00:00Z" Option.none Option.none).1⟩

/-- C7. Sticky last good time: a stale record built by buildFallback from
an LKG record that is itself stale carries the last_good_at_utc of that record
unchanged, while a fresh LKG seed contributes its own fetch timestamp. -/
theorem sticky_last_good (meta : ProviderMetadata) (ft : FailureType)
    (expl : String) (lg : ProviderResult) (now : String)
    (hs : Option Nat) (fm : Option String)
    (htr : truthy lg.nextEventUtc = true) :
    (lg.status = "stale" →
      (buildFallback meta ft expl (some lg) now hs fm).status = "stale"
      ∧ (buildFallback meta ft expl (some lg) now hs fm).last_good_at_utc
          = lg.last_good_at_utc)
    ∧ (lg.status = "fresh" →
      (buildFallback meta ft expl (some lg) now hs fm).last_good_at_utc
          = some lg.fetched_at_utc) := by
  constructor
  · intro hst
    constructor
    · simp [buildFallback, hst, htr]
    · simp [buildFallback, hst, htr]
  · intro hfr
    simp [buildFallback, hfr, htr]

/-- Witness for C7 at the concrete sample stale record. -/
theorem sticky_last_good_witness :
    (buildFallback sampleMeta FailureType.Unavailable "HTTP 503" (some sampleStaleRecord)
        "2024-02-01T00:00:00Z" Option.none Option.none).status = "stale"
    ∧ (buildFallback sampleMeta FailureType.Unavailable "HTTP 503" (some sampleStaleRecord)
        "2024-02-01T00:00:00Z" Option.none Option.none).last_good_at_utc
        = sampleStaleRecord.last_good_at_utc :=
  (sticky_last_good sampleMeta FailureType.Unavailable "HTTP 503" sampleStaleRecord
      "2024-02-01T00:00:00Z" Option.none Option.none (by decide)).1 (by decide)

/-- C4. Store separation: for sources whose game and type names contain
no path separator (every registered source), the LKG vault path read by
readLkgData is distinct from the live path that writeLiveJson overwrites,
so overwriting the live store never changes what the last-known-good
lookup returns — a live record of a previous run can never become the
fallback seed. -/
theorem store_separation :
    (∀ (dataDir game type game' type' : String),
        '/' ∉ game'.data → '/' ∉ type'.data →
        getLkgPath dataDir game type ≠ getLivePath dataDir game' type')
    ∧ (∀ (fs : FileSystem) (parse : ParseOracle) (dataDir : String)
        (data : ProviderResult) (serialized : String) (game type : String),
        '/' ∉ data.game.data → '/' ∉ data.type.data →
        readLkgData (writeLiveJson fs dataDir data serialized) parse dataDir game type
          = readLkgData fs parse dataDir game type) := by
  have hpath : ∀ (dataDir game type game' type' : String),
      '/' ∉ game'.data → '/' ∉ type'.data →
      getLkgPath dataDir game type ≠ getLivePath dataDir game' type' := by
    intro dataDir game type game' type' hg ht heq
    have h := congrArg (fun s => s.data.count '/') heq
    have e1 : "/".data.count '/' = 1 := rfl
    have e2 : "_lkg".data.count '/' = 0 := rfl
    have e3 : ".".data.count '/' = 0 := rfl
    have e4 : ".json".data.count '/' = 0 := rfl
    have hg0 : game'.data.count '/' = 0 := List.count_eq_zero.mpr hg
    have ht0 : type'.data.count '/' = 0 := List.count_eq_zero.mpr ht
    simp only [getLkgPath, getLivePath, pathJoin, lkgDataDir, String.data_append,
      List.count_append, e1, e2, e3, e4, hg0, ht0] at h
    omega
  refine ⟨hpath, ?_⟩
  intro fs parse dataDir data serialized game type hg ht
  have hne := hpath dataDir game type data.game data.type hg ht
  simp only [readLkgData, writeLiveJson, if_neg hne]

/-- Witness for C4 at concrete registered source names. -/
theorem store_separation_witness :
    getLkgPath "public/data" "fortnite" "next-season"
      ≠ getLivePath "public/data" "fortnite" "next-season" :=
  store_separation.1 "public/data" "fortnite" "next-season" "fortnite" "next-season"
    (by decide) (by decide)

/-- An unavailable record as the orchestrator would write it. -/
def sampleUnavailable : ProviderResult :=
  { game := "roblox", type := "status", title := "Roblox"
    status := "unavailable", fetched_at_utc := "2024-01-04T00:00:00Z"
    failure_type := some FailureType.Unavailable
    explanation := some "HTTP 500" }

/-- C8. Majority-failure exit: the exit code is non-zero exactly when
strictly more than half of the per-source results are unavailable; in
particular 6 unavailable of 10 exits 1 and 5 of 10 exits 0. -/
theorem majority_failure_exit :
    (∀ results : List ProviderResult,
        (exitCode results ≠ 0 ↔ results.length < 2 * unavailableCount results))
    ∧ exitCode (List.replicate 5 sampleUnavailable
        ++ List.replicate 5 sampleStaleRecord) = 0
    ∧ exitCode (List.replicate 6 sampleUnavailable
        ++ List.replicate 4 sampleStaleRecord) = 1 := by
  have main : ∀ results : List ProviderResult,
      (exitCode results ≠ 0 ↔ results.length < 2 * unavailableCount results) := by
    intro results
    have hle : unavailableCount results ≤ results.length :=
      List.length_filter_le _ results
    by_cases hcond : (1 / 2 : ℚ) < failureFrac results
    · have h1 : exitCode results = 1 := by
        unfold exitCode
        rw [if_pos hcond]
      rw [h1]
      norm_num
      unfold failureFrac at hcond
      rcases Nat.eq_zero_or_pos results.length with hz | hp
      · rw [if_neg (by omega : ¬ 0 < results.length)] at hcond
        norm_num at hcond
      · rw [if_pos hp] at hcond
        have hq : (0 : ℚ) < (results.length : ℚ) := by exact_mod_cast hp
        rw [lt_div_iff₀ hq] at hcond
        have h3 : (results.length : ℚ) < 2 * (unavailableCount results : ℚ) := by
          linarith
        exact_mod_cast h3
    · have h0 : exitCode results = 0 := by
        unfold exitCode
        rw [if_neg hcond]
      rw [h0]
      norm_num
      unfold failureFrac at hcond
      rcases Nat.eq_zero_or_pos results.length with hz | hp
      · omega
      · rw [if_pos hp] at hcond
        have hq : (0 : ℚ) < (results.length : ℚ) := by exact_mod_cast hp
        rw [lt_div_iff₀ hq] at hcond
        rw [not_lt] at hcond
        have h4 : 2 * (unavailableCount results : ℚ) ≤ (results.length : ℚ) := by
          linarith
        exact_mod_cast h4
  refine ⟨main, ?_, ?_⟩
  · have h := main (List.replicate 5 sampleUnavailable ++ List.replicate 5 sampleStaleRecord)
    have hc : ¬ ((List.replicate 5 sampleUnavailable ++ List.replicate 5 sampleStaleRecord).length
        < 2 * unavailableCount (List.replicate 5 sampleUnavailable
            ++ List.replicate 5 sampleStaleRecord)) := by
      have h1 : (List.replicate 5 sampleUnavailable
          ++ List.replicate 5 sampleStaleRecord).length = 10 := by decide
      have h2 : unavailableCount (List.replicate 5 sampleUnavailable
          ++ List.replicate 5 sampleStaleRecord) = 5 := by decide
      omega
    exact not_not.mp (fun hne => hc (h.mp hne))
  · have h := main (List.replicate 6 sampleUnavailable ++ List.replicate 4 sampleStaleRecord)
    have hc : (List.replicate 6 sampleUnavailable ++ List.replicate 4 sampleStaleRecord).length
        < 2 * unavailableCount (List.replicate 6 sampleUnavailable
            ++ List.replicate 4 sampleStaleRecord) := by
      have h1 : (List.replicate 6 sampleUnavailable
          ++ List.replicate 4 sampleStaleRecord).length = 10 := by decide
      have h2 : unavailableCount (List.replicate 6 sampleUnavailable
          ++ List.replicate 4 sampleStaleRecord) = 6 := by decide
      omega
    have hne := h.mpr hc
    have hcases : exitCode (List.replicate 6 sampleUnavailable
        ++ List.replicate 4 sampleStaleRecord) = 1
        ∨ exitCode (List.replicate 6 sampleUnavailable
            ++ List.replicate 4 sampleStaleRecord) = 0 := by
      unfold exitCode
      split
      · exact Or.inl rfl
      · exact Or.inr rfl
    rcases hcases with h1 | h0
    · exact h1
    · exact absurd h0 hne

/-- An attempt oracle that is blocked with HTTP 403 on every attempt. -/
def resp403 : Nat → AttemptOutcome := fun _ => AttemptOutcome.response 403 "" ""

/-- A browser environment whose session works normally. -/
def benvIdle : BrowserEnv := {}

/-- A browser environment whose launch throws. -/
def benvCrash : BrowserEnv :=
  { crash := some "browserType.launch: Executable does not exist" }

/-- Counterexample for C5 as stated: with escalation disallowed
(useBrowserOnBlocked false) and the default retries = 2, a fetch whose
every response is HTTP 403 performs 3 attempts, not 1 — fetchHtml does
not return immediately, it falls into the generic classification path
and retries until the attempts are exhausted (though the final outcome
is still classified Blocked). -/
theorem blocked_short_circuit_cex :
    (fetchHtml resp403 benvIdle false 2 0).2.1 = 3
    ∧ ¬ (fetchHtml resp403 benvIdle false 2 0).2.1 = 1
    ∧ (fetchHtml resp403 benvIdle false 2 0).1.failureType = some FailureType.Blocked := by
  decide

/-- Helper: with escalation disallowed and a constantly blocked oracle,
the attempt loop runs through all remaining attempts and returns the
classified HTTP failure. -/
theorem fetchHtmlAux_const_blocked (benv : BrowserEnv) (s : Nat) (text url : String)
    (hs : s = 403 ∨ s = 429) (rem : Nat) :
    ∀ (attempt budget : Nat),
      fetchHtmlAux (fun _ => AttemptOutcome.response s text url) benv false attempt rem budget
        = ({ ok := false, status := s, text := "", mode := "http"
             error := some ("HTTP " ++ toString s)
             failureType := some FailureType.Blocked }, attempt + rem + 1, budget) := by
  induction rem with
  | zero =>
    intro attempt budget
    rcases hs with rfl | rfl <;> rfl
  | succ rem ih =>
    intro attempt budget
    have harith : attempt + 1 + rem + 1 = attempt + (rem + 1) + 1 := by omega
    rcases hs with rfl | rfl <;>
      · have h2 := ih (attempt + 1) budget
        rw [harith] at h2
        exact h2

/-- C5, amended. Blocked handling at the transport tier: when the
response status is 403 or 429 and escalation is allowed but the global
browser budget is exhausted, fetchHtml returns immediately after that
single attempt with a Blocked outcome and an untouched budget; when
escalation is disallowed, the outcome is still classified Blocked but
fetchHtml keeps retrying until the attempts are exhausted, performing
exactly retries + 1 attempts. -/
theorem blocked_classification :
    (∀ (resp : Nat → AttemptOutcome) (benv : BrowserEnv) (s : Nat) (text url : String)
        (retries budget : Nat),
        resp 0 = AttemptOutcome.response s text url → (s = 403 ∨ s = 429) →
        BROWSER_MAX ≤ budget →
        fetchHtml resp benv true retries budget
          = ({ ok := false, status := s, text := "", mode := "http"
               error := some "Blocked and browser budget exhausted"
               failureType := some FailureType.Blocked }, 1, budget))
    ∧ (∀ (benv : BrowserEnv) (s : Nat) (text url : String) (retries budget : Nat),
        (s = 403 ∨ s = 429) →
        fetchHtml (fun _ => AttemptOutcome.response s text url) benv false retries budget
          = ({ ok := false, status := s, text := "", mode := "http"
               error := some ("HTTP " ++ toString s)
               failureType := some FailureType.Blocked }, retries + 1, budget)) := by
  constructor
  · intro resp benv s text url retries budget h0 hs hb
    have hcu : ¬ budget < BROWSER_MAX := by omega
    rcases hs with rfl | rfl <;>
      simp [fetchHtml, fetchHtmlAux, h0, budgetCanUse, hcu]
  · intro benv s text url retries budget hs
    have h := fetchHtmlAux_const_blocked benv s text url hs retries 0 budget
    simpa [fetchHtml] using h

/-- Witness for C5 at concrete inputs: a 403 with the budget already
exhausted returns after 1 attempt; a 403 with escalation disallowed and
retries = 2 returns the Blocked classification after 3 attempts. -/
theorem blocked_classification_witness :
    fetchHtml resp403 benvIdle true 2 3
      = ({ ok := false, status := 403, text := "", mode := "http"
           error := some "Blocked and browser budget exhausted"
           failureType := some FailureType.Blocked }, 1, 3)
    ∧ fetchHtml resp403 benvIdle false 2 0
      = ({ ok := false, status := 403, text := "", mode := "http"
           error := some ("HTTP " ++ toString 403)
           failureType := some FailureType.Blocked }, 3, 0) :=
  ⟨blocked_classification.1 resp403 benvIdle 403 "" "" 2 3 rfl (Or.inl rfl) (by decide),
   blocked_classification.2 benvIdle 403 "" "" 2 0 (Or.inl rfl)⟩

/-- Counterexample for C6 as stated: in the escalation path of fetchHtml
the budget counter is incremented before the browser fetch, so with a
browser whose launch throws, a single blocked fetch consumes one unit of
budget (count goes from 0 to 1) even though no launch succeeded. -/
theorem budget_decrement_cex :
    (fetchHtml resp403 benvCrash true 2 0).2.2 = 1
    ∧ ¬ (fetchHtml resp403 benvCrash true 2 0).2.2 = 0
    ∧ (fetchHtml resp403 benvCrash true 2 0).1.error
        = some "browserType.launch: Executable does not exist" := by
  decide

/-- C6, amended. Budget decrement discipline: withBrowserPage consumes a
budget unit only after a successful launch (a failed launch leaves the
count unchanged), but the escalation path of fetchHtml consumes the unit
before the browser fetch, so there a failed launch does consume budget —
the happens-after discipline holds for withBrowserPage only. -/
theorem budget_decrement_discipline :
    (∀ (α : Type) (budget : Nat) (launchErr : String) (cb : Except String α),
        budgetCanUse budget = true →
        (withBrowserPage budget false launchErr cb).2 = budget
        ∧ (withBrowserPage budget false launchErr cb).1 = Except.error launchErr)
    ∧ (∀ (α : Type) (budget : Nat) (launchErr : String) (cb : Except String α),
        budgetCanUse budget = true →
        (withBrowserPage budget true launchErr cb).2 = budget + 1)
    ∧ (∀ (resp : Nat → AttemptOutcome) (benv : BrowserEnv) (s : Nat) (text url : String)
        (retries budget : Nat),
        resp 0 = AttemptOutcome.response s text url → (s = 403 ∨ s = 429) →
        budgetCanUse budget = true →
        (fetchHtml resp benv true retries budget).2.2 = budget + 1
        ∧ (fetchHtml resp benv true retries budget).1 = fetchWithBrowser benv) := by
  refine ⟨?_, ?_, ?_⟩
  · intro α budget launchErr cb h
    constructor <;> simp [withBrowserPage, h]
  · intro α budget launchErr cb h
    simp [withBrowserPage, h]
  · intro resp benv s text url retries budget h0 hs hb
    rcases hs with rfl | rfl <;>
      constructor <;> simp [fetchHtml, fetchHtmlAux, h0, hb]

/-- Witness for C6 at concrete inputs: with one unit of budget left, a
failed launch under withBrowserPage leaves the count at 2, a successful
launch moves it to 3, and the fetchHtml escalation moves it from 0 to 1
even though the browser environment crashes. -/
theorem budget_decrement_discipline_witness :
    (withBrowserPage 2 false "launch failed" (Except.ok "page")).2 = 2
    ∧ (withBrowserPage 2 true "launch failed" (Except.ok "page")).2 = 3
    ∧ (fetchHtml resp403 benvCrash true 2 0).2.2 = 0 + 1 :=
  ⟨(budget_decrement_discipline.1 String 2 "launch failed" (Except.ok "page") (by decide)).1,
   budget_decrement_discipline.2.1 String 2 "launch failed" (Except.ok "page") (by decide),
   (budget_decrement_discipline.2.2 resp403 benvCrash 403 "" "" 2 0 rfl
      (Or.inl rfl) (by decide)).1⟩

/-- C10. Budget exhaustion in withBrowserPage: when the remaining budget
is 0, withBrowserPage throws the Browser budget exhausted error instead
of returning a tagged outcome, leaving the count unchanged; when the
remaining budget is positive it proceeds and never throws that error on
its own (it returns the callback outcome or propagates the launch
error); the remaining-budget getter is 0 exactly when the internal
canUse guard fails; and in the same exhausted state fetchHtml, by
contrast, returns a tagged Blocked FetchResult rather than throwing. -/
theorem budget_exhausted_throws :
    (∀ (α : Type) (budget : Nat) (launchOk : Bool) (launchErr : String)
        (cb : Except String α),
        getBrowserBudgetRemaining budget = 0 →
        withBrowserPage budget launchOk launchErr cb
          = (Except.error "Browser budget exhausted", budget))
    ∧ (∀ (α : Type) (budget : Nat) (launchOk : Bool) (launchErr : String)
        (cb : Except String α),
        0 < getBrowserBudgetRemaining budget →
        withBrowserPage budget launchOk launchErr cb
          = if launchOk then (cb, budget + 1) else (Except.error launchErr, budget))
    ∧ (∀ budget : Nat,
        getBrowserBudgetRemaining budget = 0 ↔ budgetCanUse budget = false)
    ∧ (∀ (resp : Nat → AttemptOutcome) (benv : BrowserEnv) (text url : String)
        (retries budget : Nat),
        resp 0 = AttemptOutcome.response 403 text url →
        getBrowserBudgetRemaining budget = 0 →
        (fetchHtml resp benv true retries budget).1.failureType
          = some FailureType.Blocked) := by
  have hrem : ∀ budget : Nat,
      getBrowserBudgetRemaining budget = 0 ↔ budgetCanUse budget = false := by
    intro budget
    unfold getBrowserBudgetRemaining budgetCanUse BROWSER_MAX
    constructor
    · intro h
      simp only [decide_eq_false_iff_not]
      omega
    · intro h
      simp only [decide_eq_false_iff_not] at h
      omega
  refine ⟨?_, ?_, hrem, ?_⟩
  · intro α budget launchOk launchErr cb h
    have hcu : budgetCanUse budget = false := (hrem budget).mp h
    simp [withBrowserPage, hcu]
  · intro α budget launchOk launchErr cb h
    have hb : budget < BROWSER_MAX := by
      unfold getBrowserBudgetRemaining at h
      omega
    have hcu : budgetCanUse budget = true := by
      simp only [budgetCanUse, decide_eq_true_eq]
      exact hb
    cases launchOk <;> simp [withBrowserPage, hcu]
  · intro resp benv text url retries budget h0 h
    have hb : ¬ budget < BROWSER_MAX := by
      have hcu := (hrem budget).mp h
      simp only [budgetCanUse, decide_eq_false_iff_not] at hcu
      exact hcu
    simp [fetchHtml, fetchHtmlAux, h0, budgetCanUse, hb]

/-- Witness for C10 at concrete inputs: with the budget fully used, a
call with a working launch still throws the budget error, while with one
unit left it runs the callback; and fetchHtml in the exhausted state
returns the tagged Blocked outcome. -/
theorem budget_exhausted_throws_witness :
    withBrowserPage 3 true "launch failed" (Except.ok "page")
      = (Except.error "Browser budget exhausted", 3)
    ∧ withBrowserPage 2 true "launch failed" (Except.ok "page")
      = (Except.ok "page", 3)
    ∧ (fetchHtml resp403 benvIdle true 2 3).1.failureType = some FailureType.Blocked :=
  ⟨budget_exhausted_throws.1 String 3 true "launch failed" (Except.ok "page") (by decide),
   budget_exhausted_throws.2.1 String 2 true "launch failed" (Except.ok "page") (by decide),
   budget_exhausted_throws.2.2.2 resp403 benvIdle "" "" 2 3 rfl (by decide)⟩

/-- A vault holding a fresh LKG record for the sample source. -/
def sampleVault : Vault :=
  fun k => if k = ("fortnite", "next-season") then some sampleFresh else Option.none

/-- Counterexample for C9 as stated: when the provider for the sample
source throws boom, the record the orchestrator writes does not carry
the bare exception message as explanation (it is prefixed with Crashed:),
and when a fresh LKG record exists the written record is stale, not
unavailable. -/
theorem crash_isolation_cex :
    ¬ (orchestrateOne sampleEntry (ProviderBehavior.throws "boom")
        "2024-02-01T00:00:00Z" (fun _ => Option.none)).1.explanation = some "boom"
    ∧ (orchestrateOne sampleEntry (ProviderBehavior.throws "boom")
        "2024-02-01T00:00:00Z" (fun _ => Option.none)).1.explanation
        = some "Crashed: boom"
    ∧ ¬ (orchestrateOne sampleEntry (ProviderBehavior.throws "boom")
        "2024-02-01T00:00:00Z" sampleVault).1.status = "unavailable"
    ∧ (orchestrateOne sampleEntry (ProviderBehavior.throws "boom")
        "2024-02-01T00:00:00Z" sampleVault).1.status = "stale" := by
  decide

/-- Helper: processing a concatenation of registry items processes the
first part, then the second part on the vault the first part left. -/
theorem runAllResults_append :
    ∀ (xs ys : List (RegistryEntry × ProviderBehavior × String)) (v : Vault),
      runAllResults (xs ++ ys) v = runAllResults xs v ++ runAllResults ys (runsVault xs v)
  | [], _, _ => rfl
  | (e, b, now) :: rest, ys, v => by
    simp only [List.cons_append, runAllResults, runsVault, List.cons.injEq, true_and]
    exact runAllResults_append rest ys ((orchestrateOne e b now v).2)

/-- C9, amended. Crash isolation: the orchestrator produces exactly one
record per registry entry; a source whose provider throws is processed
in place with the fault converted to an unavailable-style outcome whose
explanation is the exception message prefixed with Crashed:, and every
subsequent source is processed on the unchanged vault; when no fresh LKG
record exists for the crashed source the record written is exactly that
unavailable record (with a fresh LKG it is downgraded to stale instead);
and the run summary is computed over all sources. -/
theorem crash_isolation :
    (∀ (items : List (RegistryEntry × ProviderBehavior × String)) (v : Vault),
        (runAllResults items v).length = items.length)
    ∧ (∀ (pre post : List (RegistryEntry × ProviderBehavior × String))
        (e : RegistryEntry) (m now : String) (v : Vault),
        runAllResults (pre ++ (e, ProviderBehavior.throws m, now) :: post) v
          = runAllResults pre v
            ++ classifyFailure e (crashRecord e ("Crashed: " ++ m) now)
                ((runsVault pre v) (e.id, e.type)) now
              :: runAllResults post (runsVault pre v))
    ∧ (∀ (e : RegistryEntry) (m now : String) (lkg : Option ProviderResult),
        (∀ l, lkg = some l → ¬ l.status = "fresh") →
        classifyFailure e (crashRecord e ("Crashed: " ++ m) now) lkg now
          = crashRecord e ("Crashed: " ++ m) now)
    ∧ (∀ (items : List (RegistryEntry × ProviderBehavior × String)) (v : Vault),
        (mkSummary (runAllResults items v)).total = items.length) := by
  have hlen : ∀ (items : List (RegistryEntry × ProviderBehavior × String)) (v : Vault),
      (runAllResults items v).length = items.length := by
    intro items
    induction items with
    | nil => intro v; rfl
    | cons x rest ih =>
      intro v
      obtain ⟨e, b, now⟩ := x
      simp only [runAllResults, List.length_cons, ih]
  refine ⟨hlen, ?_, ?_, ?_⟩
  · intro pre post e m now v
    rw [runAllResults_append]
    simp only [List.append_cancel_left_eq]
    show (orchestrateOne e (ProviderBehavior.throws m) now (runsVault pre v)).1
        :: runAllResults post (orchestrateOne e (ProviderBehavior.throws m) now
            (runsVault pre v)).2
      = _
    simp only [orchestrateOne, providerOutcome, crashRecord]
    rw [if_neg (by decide : ¬ ("unavailable" : String) = "fresh")]
  · intro e m now lkg h
    match lkg with
    | Option.none =>
      simp [classifyFailure, ensureUnavailable, crashRecord]
    | some l =>
      have hl : ¬ l.status = "fresh" := h l rfl
      simp [classifyFailure, hl, ensureUnavailable, crashRecord]
  · intro items v
    simp only [mkSummary, hlen]

/-- Witness for C9 at a concrete crashed source with no LKG record. -/
theorem crash_isolation_witness :
    classifyFailure sampleEntry
        (crashRecord sampleEntry ("Crashed: " ++ "boom") "2024-02-01T00:00:00Z")
        Option.none "2024-02-01T00:00:00Z"
      = crashRecord sampleEntry ("Crashed: " ++ "boom") "2024-02-01T00:00:00Z" :=
  crash_isolation.2.2.1 sampleEntry "boom" "2024-02-01T00:00:00Z" Option.none
    (fun l h => Option.noConfusion h)

end NextReset
